import Mathlib

/-!
Verification model of the macmac service-mesh core: the gateway proxy
(URL rewriting, header sanitization, query/body forwarding, trace header),
the local dispatch compiler (argument binding order, query extraction),
and the trace/span logging layer. Each definition is a shallow embedding
of the corresponding Python function under src/services.
-/

namespace Macmac

/-! ## String replacement (Python str.replace semantics)

Python s.replace(old, new) replaces all non-overlapping occurrences of
old in s, scanning left to right and continuing after each replacement.
Embedded structurally with a fuel argument bounded by the length of the
scanned list so the kernel can evaluate it; each step consumes at least
one character and one unit of fuel, so fuel equal to the length of the
input is always enough. An empty pattern is returned unchanged (the
program never replaces an empty pattern). -/

def replaceAllFuel (pat rep : List Char) : Nat → List Char → List Char
  | _, [] => []
  | 0, s => s
  | fuel + 1, c :: rest =>
    if pat ≠ [] ∧ pat.isPrefixOf (c :: rest) then
      rep ++ replaceAllFuel pat rep fuel ((c :: rest).drop pat.length)
    else
      c :: replaceAllFuel pat rep fuel rest

def replaceAll (pat rep s : List Char) : List Char :=
  replaceAllFuel pat rep s.length s

/-! ## Gateway upstream URL construction

Embeds src/services/gateway/main.py. Two URL builders exist in the
source: build_url (placeholder substitution over the route template,
lines 20-30, referenced only by the unwired create_body_handler and
create_param_only_handler) and the inline computation of the wired
make_proxy_handler (line 112), which appends to the service base url the
inbound request path with every occurrence of the literal "/api/v1"
removed. -/

/-- Embeds build_url: start from the route path template and, for each
matched path parameter, replace its placeholder with the value; prepend
the service base url. -/
def build_url (serviceUrl routePath : String) (pathParams : List (String × String)) : String :=
  let path := pathParams.foldl
    (fun p nv => replaceAll ("\x7b" ++ nv.1 ++ "\x7d").data nv.2.data p)
    routePath.data
  serviceUrl ++ String.mk path

def apiV1Marker : List Char := "/api/v1".data

/-- Embeds the upstream url computed by the wired make_proxy_handler:
service.url + request.url.path.replace("/api/v1", ""). -/
def make_proxy_upstream_url (serviceUrl inboundPath : String) : String :=
  serviceUrl ++ String.mk (replaceAll apiV1Marker [] inboundPath.data)

/-- Decides whether the literal marker "/api/v1" occurs anywhere in a
character list. -/
def hasMarker : List Char → Bool
  | [] => false
  | c :: rest => apiV1Marker.isPrefixOf (c :: rest) || hasMarker rest

/-! ## Gateway header handling and trace id

Embeds the header and trace-id logic of make_proxy_handler
(src/services/gateway/main.py lines 123-158) and of start_request_trace
(src/services/framework/tracing.py lines 10-21). Headers are modelled as
association lists of key/value strings with pairwise distinct keys, as
produced by the frameworks header mapping. -/

def TRACE_ID_HEADER : String := "X-Trace-ID"

/-- ASCII lowercasing of one character, modelling Python str.lower on
the ASCII header keys the gateway sees. -/
def lowerChar (c : Char) : Char :=
  if 'A' ≤ c ∧ c ≤ 'Z' then Char.ofNat (c.toNat + 32) else c

/-- ASCII lowercasing of a string. -/
def lowerStr (s : String) : String := String.mk (s.data.map lowerChar)

def framingHeaderBlocklist : List String :=
  ["host", "content-length", "transfer-encoding", "connection"]

def relayHeaderBlocklist : List String :=
  ["content-length", "transfer-encoding", "connection"]

/-- Embeds the outbound header filter of make_proxy_handler (lines
124-134): an inbound header is kept unless its lowercased key is host,
content-length, transfer-encoding or connection. -/
def proxy_forward_headers (inbound : List (String × String)) : List (String × String) :=
  inbound.filter (fun kv => !(framingHeaderBlocklist.contains (lowerStr kv.1)))

/-- Embeds the response header filter of make_proxy_handler (lines
153-158): an upstream response header is kept unless its lowercased key
is content-length, transfer-encoding or connection. Host is not in this
blocklist. -/
def relay_response_headers (upstream : List (String × String)) : List (String × String) :=
  upstream.filter (fun kv => !(relayHeaderBlocklist.contains (lowerStr kv.1)))

/-- Embeds start_request_trace (tracing.py lines 10-21): adopt the
inbound trace header when present and nonempty, else synthesize a trace
id carrying the LOCAL- marker in front of a fresh uuid. The fresh uuid
is passed as a parameter. -/
def start_request_trace (inboundTrace : Option String) (freshUuid : String) : String :=
  match inboundTrace with
  | some t => if t = "" then "LOCAL-" ++ freshUuid else t
  | none => "LOCAL-" ++ freshUuid

/-- Embeds the gateway trace id choice (gateway/main.py line 136): adopt
the inbound header when present and nonempty, else a bare fresh uuid
with no marker. -/
def gateway_trace_id (inboundTrace : Option String) (freshUuid : String) : String :=
  match inboundTrace with
  | some t => if t = "" then freshUuid else t
  | none => freshUuid

/-- Decides the recognizable local-origin pattern: the trace id starts
with the LOCAL- marker. -/
def isLocalTraceId (s : String) : Bool := "LOCAL-".data.isPrefixOf s.data

/-- Embeds Python dict assignment d[k] = v on an association list whose
keys are pairwise distinct: replace the value at an existing exact key,
else append the new pair. -/
def dict_set (hs : List (String × String)) (k v : String) : List (String × String) :=
  if hs.any (fun kv => kv.1 = k) then
    hs.map (fun kv => if kv.1 = k then (k, v) else kv)
  else hs ++ [(k, v)]

/-- Embeds gateway/main.py lines 124-137: the filtered inbound headers
with the trace header then set to the adopted or synthesized trace id. -/
def proxy_outbound_headers (inbound : List (String × String))
    (inboundTrace : Option String) (freshUuid : String) : List (String × String) :=
  dict_set (proxy_forward_headers inbound) TRACE_ID_HEADER
    (gateway_trace_id inboundTrace freshUuid)

/-! ## Gateway query and body forwarding (make_proxy_handler) -/

/-- Decides whether a route path template contains a placeholder, as the
source tests with the character left brace in route.path
(gateway/main.py line 115, helpers.py line 125). -/
def is_detail (routePath : String) : Bool := routePath.data.contains (Char.ofNat 123)

/-- Embeds the query forwarding decision of make_proxy_handler (line
118): query params are forwarded verbatim only for GET requests on
routes whose template has no path placeholder; otherwise they are
dropped. -/
def proxy_query_params (method routePath : String) (qp : List (String × String)) :
    Option (List (String × String)) :=
  if method = "GET" ∧ is_detail routePath = false then some qp else none

/-- Embeds the body forwarding decision of make_proxy_handler (line
121): the parsed JSON body is forwarded, without schema validation, for
POST, PUT and PATCH, else no body is sent. -/
def proxy_json_body {α : Type} (method : String) (body : Option α) : Option α :=
  if method = "POST" ∨ method = "PUT" ∨ method = "PATCH" then body else none

/-! ## Structured log payloads

Embeds log_span and log_event (src/services/framework/logging.py lines
46-59 and 83-93). A payload is the association list of the emitted JSON
object, in insertion order; the timestamp and current trace id are
parameters. -/

/-- Embeds log_span: payload ts, trace_id, event, then the caller
supplied fields. -/
def log_span_payload (ts traceId event : String) (fields : List (String × String)) :
    List (String × String) :=
  [("ts", ts), ("trace_id", traceId), ("event", event)] ++ fields

/-- Embeds log_event: payload ts, event, then the caller supplied data.
No trace_id entry is written by the function itself. -/
def log_event_payload (ts event : String) (data : List (String × String)) :
    List (String × String) :=
  [("ts", ts), ("event", event)] ++ data

/-! ## Span stack and with-statement discipline

Embeds the Span context manager (logging.py lines 62-80). The state
carries a monotonic clock (advanced only by tick), the span stack and
the emitted span event log; log_span payload fields beyond the event
name and duration are dropped as they repeat the ambient trace id. -/

structure SpanRecord where
  ts : Nat
  event : String
  name : String
  duration_ms : Option Int
deriving DecidableEq

structure TraceState where
  clock : Nat
  stack : List String
  log : List SpanRecord
deriving DecidableEq

/-- Embeds Span enter (lines 70-74): save the start time, emit the
span_start event, push the name; returns the new state and the saved
start time. -/
def span_enter (name : String) (st : TraceState) : TraceState × Nat :=
  (⟨st.clock,
    st.stack ++ [name],
    st.log ++ [⟨st.clock, "span_start_" ++ name, name, none⟩]⟩, st.clock)

/-- Embeds Span exit (lines 76-80): pop the last stack entry, compute
the elapsed duration from the saved start, emit the span_end event. The
source runs this on normal and error exits alike and returns a falsy
value, so errors are never suppressed. -/
def span_exit (name : String) (start : Nat) (st : TraceState) : TraceState :=
  ⟨st.clock,
   st.stack.dropLast,
   st.log ++ [⟨st.clock, "span_end_" ++ name, name,
     some ((st.clock : Int) - (start : Int))⟩]⟩

/-- Embeds the with-statement discipline of with Span(name): enter, run
the body, and run exit on every exit path; the body result, a normal
value or a propagating error, is returned unchanged. -/
def withSpan {ε α : Type} (name : String)
    (body : TraceState → Except ε α × TraceState) (st : TraceState) :
    Except ε α × TraceState :=
  let entered := span_enter name st
  let r := body entered.1
  (r.1, span_exit name entered.2 r.2)

/-- Advances the monotonic clock by n units, modelling time passing
inside a span body. -/
def tick (n : Nat) (st : TraceState) : TraceState := ⟨st.clock + n, st.stack, st.log⟩

/-- The nested call sequence of the claim: enter span x; after a clock
units enter span y whose body takes b units; exit y; c more units; exit
x. -/
def nested_spans (a b c : Nat) (st : TraceState) : Except Unit Unit × TraceState :=
  withSpan "x" (fun st1 =>
    let st2 := tick a st1
    let inner := withSpan "y" (fun s => (Except.ok (), tick b s)) st2
    (inner.1, tick c inner.2)) st

/-! ## Local dispatch compiler

Embeds make_endpoint, build_body_handler, build_query_handler and _run
(src/services/framework/helpers.py) together with the query dependency
built by build_query_dependency (src/services/framework/utils.py lines
16-39). Path parameter values are given as the list produced by the
matched route, in template order. -/

/-- A positional argument observed by a handler: a path parameter value,
the validated body, or the per-request persistence handle. -/
inductive HandlerArg (π β δ : Type) where
  | pathParam : π → HandlerArg π β δ
  | body : β → HandlerArg π β δ
  | dbHandle : δ → HandlerArg π β δ
deriving DecidableEq

/-- Embeds the argument assembly of the endpoint produced by
build_body_handler (helpers.py lines 59-62): path parameter values in
template order, then the validated body, then the db handle when one
was injected. -/
def body_handler_args {π β δ : Type} (pathParams : List π) (data : β) (db : Option δ) :
    List (HandlerArg π β δ) :=
  pathParams.map HandlerArg.pathParam ++ [HandlerArg.body data]
    ++ db.toList.map HandlerArg.dbHandle

/-- Embeds the argument assembly of _run (helpers.py lines 17-26): the
body first when truthy, then path parameter values, then the db handle
when truthy. -/
def run_args {π β δ : Type} (data : Option β) (pathParams : List π) (db : Option δ) :
    List (HandlerArg π β δ) :=
  data.toList.map HandlerArg.body ++ pathParams.map HandlerArg.pathParam
    ++ db.toList.map HandlerArg.dbHandle

/-- The named query options handed to a handler by the query dependency:
the dict with keys limit, offset and search built at utils.py lines
33-37. -/
structure QueryOpts where
  limit : Int
  offset : Int
  search : Option String
deriving DecidableEq

/-- Embeds the Python expression v or d on an optional integer: None and
0 are falsy and yield the fallback. -/
def pyOrInt (v : Option Int) (d : Int) : Int :=
  match v with
  | none => d
  | some n => if n = 0 then d else n

/-- Embeds the Query(...) parameter validation FastAPI performs before
the dependency body runs: an absent parameter takes the declared
default; a supplied value below the ge bound is rejected as a client
error. -/
def validate_query_int (supplied deflt : Option Int) (ge : Int) :
    Except Unit (Option Int) :=
  match supplied with
  | none => Except.ok deflt
  | some v => if ge ≤ v then Except.ok (some v) else Except.error ()

/-- Embeds the dependency built by build_query_dependency (utils.py
lines 27-37): limit is declared Query(None, ge=0), offset Query(0,
ge=0), search Query(None); the returned dict maps limit to limit or
100, offset to offset, search to search. -/
def query_dep (limitArg offsetArg : Option Int) (searchArg : Option String) :
    Except Unit QueryOpts :=
  match validate_query_int limitArg none 0, validate_query_int offsetArg (some 0) 0 with
  | Except.ok l, Except.ok o =>
      Except.ok ⟨pyOrInt l 100, o.getD 0, searchArg⟩
  | _, _ => Except.error ()

/-- The part of a route record that make_endpoint inspects. -/
structure RouteSpec where
  method : String
  path : String
  hasRequestModel : Bool

/-- Embeds one request through the endpoint compiled by make_endpoint
(helpers.py lines 118-130). With a request model, build_body_handler
validates the raw body (a failure is a client error raised before the
handler runs) and calls the handler with path params, body, then db, and
no named options. Without one, build_query_handler runs _run; the query
dependency is attached only when the route path has no placeholder
(line 125), and its client-error rejection also precedes the handler. -/
def make_endpoint_invoke {π β δ ρ α : Type} (route : RouteSpec)
    (validate : ρ → Except Unit β)
    (handler : List (HandlerArg π β δ) → Option QueryOpts → α)
    (pathParams : List π) (rawBody : ρ) (db : Option δ)
    (limitArg offsetArg : Option Int) (searchArg : Option String) : Except Unit α :=
  if route.hasRequestModel then
    (validate rawBody).map
      (fun data => handler (body_handler_args pathParams data db) none)
  else if is_detail route.path then
    Except.ok (handler (run_args none pathParams db) none)
  else
    (query_dep limitArg offsetArg searchArg).map
      (fun q => handler (run_args none pathParams db) (some q))

/-! ## Helper lemmas -/

theorem replaceAllFuel_no_marker (fuel : Nat) (s : List Char) (h : hasMarker s = false) :
    replaceAllFuel apiV1Marker [] fuel s = s := by
  induction fuel generalizing s with
  | zero => cases s <;> rfl
  | succ n ih =>
    cases s with
    | nil => rfl
    | cons c rest =>
      simp only [hasMarker, Bool.or_eq_false_iff] at h
      rw [replaceAllFuel, if_neg, ih rest h.2]
      intro hc
      rw [h.1] at hc
      exact absurd hc.2 (by simp)

theorem replaceAllFuel_marker_step (fuel : Nat) (rd : List Char) :
    replaceAllFuel apiV1Marker [] (fuel + 1) (apiV1Marker ++ rd)
      = replaceAllFuel apiV1Marker [] fuel rd := by
  show replaceAllFuel apiV1Marker [] (fuel + 1) ('/' :: ("api/v1".data ++ rd)) = _
  rw [replaceAllFuel, if_pos]
  · show replaceAllFuel apiV1Marker [] fuel ((apiV1Marker ++ rd).drop apiV1Marker.length) = _
    rw [List.drop_left]
  · constructor
    · simp [apiV1Marker]
    · show apiV1Marker.isPrefixOf (apiV1Marker ++ rd) = true
      rw [List.isPrefixOf_iff_prefix]
      exact List.prefix_append _ _

theorem mem_dict_set (hs : List (String × String)) (k v : String)
    (kv : String × String) (h : kv ∈ dict_set hs k v) : kv ∈ hs ∨ kv.1 = k := by
  unfold dict_set at h
  split at h
  · rcases List.mem_map.mp h with ⟨kv2, hkv2, heq⟩
    by_cases hk : kv2.1 = k
    · rw [if_pos hk] at heq
      right
      rw [← heq]
    · rw [if_neg hk] at heq
      left
      rw [← heq]
      exact hkv2
  · rcases List.mem_append.mp h with h1 | h1
    · exact Or.inl h1
    · right
      rw [List.mem_singleton.mp h1]

/-! ## Claim theorems -/

/-- Claim C2, as stated, is false: the wired proxy handler does not
substitute placeholders of the route template into the service base url;
it strips every occurrence of the literal /api/v1 from the inbound path.
For the service url http://recipes:8000, the route template
/api/v1/ping/(id) with matched id 123, and the matching inbound path
/api/v1/api/v1/ping/123, the code produces http://recipes:8000/ping/123
while placeholder substitution over the template (the build_url
function the spec describes) produces http://recipes:8000/api/v1/ping/123:
another path segment was altered. -/
theorem C2_counterexample :
    make_proxy_upstream_url "http://recipes:8000" "/api/v1/api/v1/ping/123"
        = "http://recipes:8000/ping/123"
    ∧ build_url "http://recipes:8000" "/api/v1/ping/\x7bid\x7d" [("id", "123")]
        = "http://recipes:8000/api/v1/ping/123"
    ∧ make_proxy_upstream_url "http://recipes:8000" "/api/v1/api/v1/ping/123"
        ≠ build_url "http://recipes:8000" "/api/v1/ping/\x7bid\x7d" [("id", "123")] := by
  refine ⟨by decide, by decide, by decide⟩

/-- Claim C2 amended: the wired gateway proxy builds the upstream URL as
the service base url concatenated with the inbound request path from
which every occurrence of the literal /api/v1 has been removed. When the
inbound path is /api/v1 followed by a remainder free of that literal,
the result is the service url concatenated with the remainder; in
particular an inbound path /api/v1/recipes/123 yields
serviceUrl/recipes/123 with no other segment altered. -/
theorem C2_upstream_url (u rest : String) (h : hasMarker rest.data = false) :
    make_proxy_upstream_url u ("/api/v1" ++ rest) = u ++ rest := by
  unfold make_proxy_upstream_url replaceAll
  rw [String.data_append]
  show u ++ String.mk (replaceAllFuel apiV1Marker [] (apiV1Marker ++ rest.data).length
    (apiV1Marker ++ rest.data)) = _
  have hlen : (apiV1Marker ++ rest.data).length = (6 + rest.data.length) + 1 := by
    simp [apiV1Marker]
    omega
  rw [hlen, replaceAllFuel_marker_step, replaceAllFuel_no_marker _ _ h]

/-- Witness for C2_upstream_url at the inbound path /api/v1/recipes/123
of the claim. -/
theorem C2_upstream_url_witness :
    hasMarker "/recipes/123".data = false
    ∧ make_proxy_upstream_url "http://recipes:8000" ("/api/v1" ++ "/recipes/123")
        = "http://recipes:8000" ++ "/recipes/123" :=
  ⟨by decide, C2_upstream_url "http://recipes:8000" "/recipes/123" (by decide)⟩

/-- Claim C3, as stated, is false on the response side: the relayed
response strips only content-length, transfer-encoding and connection
(gateway/main.py lines 153-158); an upstream response carrying a Host
header is relayed with that header intact. -/
theorem C3_counterexample :
    ("Host", "upstream.internal") ∈ relay_response_headers [("Host", "upstream.internal")] := by
  decide

/-- Claim C3 amended: none of Host, Content-Length, Transfer-Encoding,
Connection (in any letter case) appears in the forwarded request
headers; none of Content-Length, Transfer-Encoding, Connection appears
in the relayed response headers, but Host is not stripped there; every
other inbound header, except the trace header which the proxy sets
itself, is copied to the outbound request unchanged. -/
theorem C3_header_sanitization :
    (∀ hs t u kv, kv ∈ proxy_outbound_headers hs t u →
        ¬ lowerStr kv.1 ∈ framingHeaderBlocklist)
    ∧ (∀ hs kv, kv ∈ relay_response_headers hs →
        ¬ lowerStr kv.1 ∈ relayHeaderBlocklist)
    ∧ (∀ hs t u kv, kv ∈ hs → ¬ lowerStr kv.1 ∈ framingHeaderBlocklist →
        kv.1 ≠ TRACE_ID_HEADER → kv ∈ proxy_outbound_headers hs t u) := by
  refine ⟨?_, ?_, ?_⟩
  · intro hs t u kv h
    rcases mem_dict_set _ _ _ _ h with h1 | h1
    · have := List.mem_filter.mp h1
      simpa using this.2
    · rw [h1]
      decide
  · intro hs kv h
    have := List.mem_filter.mp h
    simpa using this.2
  · intro hs t u kv hmem hblock htr
    have hf : kv ∈ proxy_forward_headers hs := by
      refine List.mem_filter.mpr ⟨hmem, ?_⟩
      simpa using hblock
    unfold proxy_outbound_headers dict_set
    split
    · exact List.mem_map.mpr ⟨kv, hf, by rw [if_neg htr]⟩
    · exact List.mem_append_left _ hf

/-- Witness for C3_header_sanitization: a non-framing inbound header on
a concrete request survives into the outbound headers. -/
theorem C3_header_sanitization_witness :
    ¬ lowerStr "Accept" ∈ framingHeaderBlocklist
    ∧ ("Accept", "application/json") ∈
        proxy_outbound_headers [("Host", "edge.local"), ("Accept", "application/json")]
          (some "abc-123") "f0f0" :=
  ⟨by decide,
   C3_header_sanitization.2.2 [("Host", "edge.local"), ("Accept", "application/json")]
     (some "abc-123") "f0f0" ("Accept", "application/json")
     (by decide) (by decide) (by decide)⟩

/-- Claim C1: for a route declaring a request schema, the endpoint
compiled by make_endpoint (which is build_body_handler) invokes the
resolved handler positionally with the path parameter values in template
order first, then the validated body, then the persistence handle when
one is injected; with no persistence dependency the handle is absent.
Query options are never forwarded on this path, and a validation failure
is a client error raised before the handler runs. -/
theorem C1_body_binding_order :
    ∀ {π β δ ρ α : Type} (route : RouteSpec) (validate : ρ → Except Unit β)
      (handler : List (HandlerArg π β δ) → Option QueryOpts → α)
      (ps : List π) (idv : π) (raw : ρ) (data : β) (d : δ)
      (l o : Option Int) (s : Option String),
      route.hasRequestModel = true → validate raw = Except.ok data →
      (make_endpoint_invoke route validate handler ps raw (some d) l o s
          = Except.ok (handler
              (ps.map HandlerArg.pathParam
                ++ [HandlerArg.body data, HandlerArg.dbHandle d]) none))
      ∧ (make_endpoint_invoke route validate handler ps raw none l o s
          = Except.ok (handler (ps.map HandlerArg.pathParam ++ [HandlerArg.body data]) none))
      ∧ (make_endpoint_invoke route validate handler [idv] raw (some d) l o s
          = Except.ok (handler
              [HandlerArg.pathParam idv, HandlerArg.body data, HandlerArg.dbHandle d] none)) := by
  intro π β δ ρ α route validate handler ps idv raw data d l o s hmodel hval
  refine ⟨?_, ?_, ?_⟩ <;>
    simp [make_endpoint_invoke, hmodel, hval, body_handler_args, Except.map]

/-- Witness for C1_body_binding_order: a handler that returns its own
argument list observes pathParam, body, dbHandle in that order on a
concrete request. -/
theorem C1_body_binding_order_witness :
    (⟨"POST", "/recipes/\x7bid\x7d", true⟩ : RouteSpec).hasRequestModel = true
    ∧ (fun n : Nat => (Except.ok n : Except Unit Nat)) 42 = Except.ok 42
    ∧ make_endpoint_invoke (⟨"POST", "/recipes/\x7bid\x7d", true⟩ : RouteSpec)
        (fun n : Nat => (Except.ok n : Except Unit Nat))
        (fun args _ => args) ["123"] 42 (some ()) none none none
        = Except.ok [HandlerArg.pathParam "123", HandlerArg.body 42, HandlerArg.dbHandle ()] :=
  ⟨rfl, rfl,
   (C1_body_binding_order (⟨"POST", "/recipes/\x7bid\x7d", true⟩ : RouteSpec)
     (fun n : Nat => (Except.ok n : Except Unit Nat)) (fun args _ => args)
     ["123"] "123" 42 42 () none none none rfl rfl).2.2⟩

/-- Claim C4: the spec (and the log_event docstring in the source) say
every structured event carries ts, trace_id and event; log_span does,
but log_event emits only ts, event and the caller fields — trace_id is
missing. Evaluated at the concrete call log_event with event startup and
one caller field. -/
theorem C4_log_event_missing_trace_id :
    (log_event_payload "2026-01-01T00:00:00" "startup" [("name", "recipes")]).map Prod.fst
        = ["ts", "event", "name"]
    ∧ ¬ "trace_id" ∈ (log_event_payload "2026-01-01T00:00:00" "startup"
        [("name", "recipes")]).map Prod.fst
    ∧ (log_span_payload "2026-01-01T00:00:00" "abc-123" "span_start_db"
        [("name", "db")]).map Prod.fst = ["ts", "trace_id", "event", "name"] := by
  refine ⟨by decide, by decide, by decide⟩

/-- Claim C5, as stated, is false: a GET request on a detail route (path
template with a placeholder) that carries query parameters has them
dropped, not forwarded verbatim, because make_proxy_handler forwards
query parameters only when the method is GET and the template has no
placeholder. -/
theorem C5_counterexample :
    proxy_query_params "GET" "/recipes/\x7bid\x7d" [("search", "tofu")] = none
    ∧ proxy_query_params "GET" "/recipes/\x7bid\x7d" [("search", "tofu")]
        ≠ some [("search", "tofu")] :=
  ⟨by decide, by decide⟩

/-- Claim C5 amended: the gateway proxy forwards query parameters
verbatim only for GET requests on routes whose template has no path
placeholder; for GET requests on detail routes the query parameters are
dropped; the parsed JSON body is forwarded verbatim, with no schema
validation, for POST, PUT and PATCH. -/
theorem C5_forwarding :
    (∀ (routePath : String) (qp : List (String × String)), is_detail routePath = false →
        proxy_query_params "GET" routePath qp = some qp)
    ∧ (∀ (routePath : String) (qp : List (String × String)), is_detail routePath = true →
        proxy_query_params "GET" routePath qp = none)
    ∧ (∀ (α : Type) (body : Option α) (m : String),
        m = "POST" ∨ m = "PUT" ∨ m = "PATCH" → proxy_json_body m body = body) := by
  refine ⟨?_, ?_, ?_⟩
  · intro p qp h
    simp [proxy_query_params, h]
  · intro p qp h
    simp [proxy_query_params, h]
  · intro α body m h
    rcases h with h | h | h <;> simp [proxy_json_body, h]

/-- Witness for C5_forwarding: a list GET forwards its query parameters
and a POST forwards its body. -/
theorem C5_forwarding_witness :
    is_detail "/recipes" = false
    ∧ proxy_query_params "GET" "/recipes" [("limit", "5")] = some [("limit", "5")]
    ∧ ("POST" = "POST" ∨ "POST" = "PUT" ∨ "POST" = "PATCH")
    ∧ proxy_json_body "POST" (some 42) = some 42 :=
  ⟨by decide, C5_forwarding.1 "/recipes" [("limit", "5")] (by decide), Or.inl rfl,
   C5_forwarding.2.2 Nat (some 42) "POST" (Or.inl rfl)⟩

/-- Claim C6, as stated, is false for the gateway runtime: when no trace
header is supplied the gateway synthesizes a bare uuid with no marker,
so its synthesized trace id does not match the recognizable local-origin
pattern that the service runtime (start_request_trace) stamps with the
LOCAL- marker. -/
theorem C6_counterexample :
    gateway_trace_id none "1f2e3d4c-0000" = "1f2e3d4c-0000"
    ∧ isLocalTraceId "1f2e3d4c-0000" = false
    ∧ isLocalTraceId (start_request_trace none "1f2e3d4c-0000") = true := by
  refine ⟨rfl, by decide, by decide⟩

/-- Claim C6 amended: both runtimes adopt a supplied nonempty inbound
trace header value verbatim; when none is supplied, the service runtime
synthesizes an id matching the local-origin pattern (prefixed LOCAL-),
while the gateway synthesizes a bare fresh uuid carrying no such marker.
Each id is computed once per request, hence stable for its duration. -/
theorem C6_trace_adoption :
    (∀ t u, t ≠ "" → start_request_trace (some t) u = t ∧ gateway_trace_id (some t) u = t)
    ∧ (∀ u, isLocalTraceId (start_request_trace none u) = true)
    ∧ (∀ u, gateway_trace_id none u = u) := by
  refine ⟨?_, ?_, fun u => rfl⟩
  · intro t u ht
    constructor <;> simp [start_request_trace, gateway_trace_id, ht]
  · intro u
    unfold isLocalTraceId start_request_trace
    rw [String.data_append, List.isPrefixOf_iff_prefix]
    exact List.prefix_append _ _

/-- Witness for C6_trace_adoption: a concrete inbound trace id is
adopted unchanged by both runtimes. -/
theorem C6_trace_adoption_witness :
    ("abc-123" : String) ≠ ""
    ∧ start_request_trace (some "abc-123") "f0f0" = "abc-123"
    ∧ gateway_trace_id (some "abc-123") "f0f0" = "abc-123" :=
  ⟨by decide, (C6_trace_adoption.1 "abc-123" "f0f0" (by decide)).1,
   (C6_trace_adoption.1 "abc-123" "f0f0" (by decide)).2⟩

/-- Claim C7: for a route with no request schema and no path
placeholder, a request omitting limit reaches the handler with the query
option limit equal to 100 (the dependency turns the absent value into
100), and a request supplying limit equal to -1 fails the ge bound and
is rejected as a client error before the handler is invoked. -/
theorem C7_query_defaults :
    ∀ {π β δ ρ α : Type} (route : RouteSpec) (validate : ρ → Except Unit β)
      (handler : List (HandlerArg π β δ) → Option QueryOpts → α)
      (raw : ρ) (db : Option δ),
      route.hasRequestModel = false → is_detail route.path = false →
      (make_endpoint_invoke route validate handler [] raw db none none none
          = Except.ok (handler (run_args none [] db) (some ⟨100, 0, none⟩)))
      ∧ make_endpoint_invoke route validate handler [] raw db (some (-1)) none none
          = Except.error () := by
  intro π β δ ρ α route validate handler raw db h1 h2
  constructor <;>
    simp [make_endpoint_invoke, h1, h2, query_dep, validate_query_int, pyOrInt, Except.map]

/-- Witness for C7_query_defaults: a handler returning its query options
observes limit 100 on a concrete request omitting limit, and limit -1 is
rejected before the handler. -/
theorem C7_query_defaults_witness :
    (⟨"GET", "/recipes", false⟩ : RouteSpec).hasRequestModel = false
    ∧ is_detail (⟨"GET", "/recipes", false⟩ : RouteSpec).path = false
    ∧ make_endpoint_invoke (⟨"GET", "/recipes", false⟩ : RouteSpec)
        (fun n : Nat => (Except.ok n : Except Unit Nat))
        (fun (_args : List (HandlerArg String Nat Unit)) (qp : Option QueryOpts) => qp)
        ([] : List String) 0 (none : Option Unit) none none none
        = Except.ok (some (⟨100, 0, none⟩ : QueryOpts))
    ∧ make_endpoint_invoke (⟨"GET", "/recipes", false⟩ : RouteSpec)
        (fun n : Nat => (Except.ok n : Except Unit Nat))
        (fun (_args : List (HandlerArg String Nat Unit)) (qp : Option QueryOpts) => qp)
        ([] : List String) 0 (none : Option Unit) (some (-1)) none none
        = Except.error () := by
  have h := C7_query_defaults (⟨"GET", "/recipes", false⟩ : RouteSpec)
    (fun n : Nat => (Except.ok n : Except Unit Nat))
    (fun (_args : List (HandlerArg String Nat Unit)) (qp : Option QueryOpts) => qp)
    0 (none : Option Unit) rfl (by decide)
  exact ⟨rfl, by decide, h.1, h.2⟩

/-- Claim C8: the with-Span discipline runs the span-end accounting
(stack pop, duration from the saved start, span_end event emission) on
every exit path; when the enclosed body raises, the error propagates
unchanged after the span end is recorded. -/
theorem C8_span_exit_on_error :
    ∀ {ε α : Type} (name : String) (body : TraceState → Except ε α × TraceState)
      (st : TraceState) (e : ε),
      (body (span_enter name st).1).1 = Except.error e →
      (withSpan name body st).1 = Except.error e
      ∧ (withSpan name body st).2.stack = (body (span_enter name st).1).2.stack.dropLast
      ∧ (withSpan name body st).2.log = (body (span_enter name st).1).2.log
          ++ [⟨(body (span_enter name st).1).2.clock, "span_end_" ++ name, name,
              some (((body (span_enter name st).1).2.clock : Int) - (st.clock : Int))⟩] := by
  intro ε α name body st e h
  exact ⟨h, rfl, rfl⟩

/-- Witness for C8_span_exit_on_error: a concrete body that fails after
five clock units still gets its span_end event with duration five, and
the error propagates. -/
theorem C8_span_exit_on_error_witness :
    (withSpan "db_query"
        (fun s : TraceState => ((Except.error "boom" : Except String Unit), tick 5 s))
        ⟨0, [], []⟩).1 = Except.error "boom"
    ∧ (withSpan "db_query"
        (fun s : TraceState => ((Except.error "boom" : Except String Unit), tick 5 s))
        ⟨0, [], []⟩).2.stack = []
    ∧ (withSpan "db_query"
        (fun s : TraceState => ((Except.error "boom" : Except String Unit), tick 5 s))
        ⟨0, [], []⟩).2.log
        = [⟨0, "span_start_db_query", "db_query", none⟩,
           ⟨5, "span_end_db_query", "db_query", some 5⟩] := by
  have h := C8_span_exit_on_error "db_query"
    (fun s : TraceState => ((Except.error "boom" : Except String Unit), tick 5 s))
    ⟨0, [], []⟩ "boom" rfl
  refine ⟨h.1, h.2.1, ?_⟩
  rw [h.2.2]
  decide

/-- Claim C9: entering span x, then span y, then exiting twice emits the
span_end event for y strictly before the one for x (the log gains
start x, start y, end y, end x in that order); each exit pops exactly
the most recently pushed name, restoring the stack, and both emitted
durations are non-negative. -/
theorem C9_nested_span_lifo (a b c : Nat) (st : TraceState) :
    (nested_spans a b c st).2.log = st.log ++
      [⟨st.clock, "span_start_x", "x", none⟩,
       ⟨st.clock + a, "span_start_y", "y", none⟩,
       ⟨st.clock + a + b, "span_end_y", "y", some (b : Int)⟩,
       ⟨st.clock + a + b + c, "span_end_x", "x", some ((a : Int) + b + c)⟩]
    ∧ (nested_spans a b c st).2.stack = st.stack
    ∧ (withSpan "y" (fun s : TraceState => ((Except.ok () : Except Unit Unit), tick b s))
        (tick a (span_enter "x" st).1)).2.stack = st.stack ++ ["x"]
    ∧ 0 ≤ (b : Int) ∧ 0 ≤ ((a : Int) + b + c) := by
  refine ⟨?_, ?_, ?_, by positivity, by positivity⟩
  · simp [nested_spans, withSpan, span_enter, span_exit, tick, List.append_assoc]
    ring
  · simp [nested_spans, withSpan, span_enter, span_exit, tick]
  · simp [withSpan, span_enter, span_exit, tick]

theorem pyOrInt_ne_zero (v : Option Int) : pyOrInt v 100 ≠ 0 := by
  rcases v with _ | n
  · decide
  · show (if n = 0 then 100 else n) ≠ 0
    split_ifs with h
    · decide
    · exact h

/-- Claim C10: an explicitly supplied limit of 0 passes the ge bound and
is not rejected, yet the handler receives limit 100, because the
dependency body computes limit or 100 and 0 is falsy; more generally the
extractor can never deliver a zero limit. -/
theorem C10_zero_limit :
    query_dep (some 0) none none = Except.ok ⟨100, 0, none⟩
    ∧ ∀ (l o : Option Int) (s : Option String) (q : QueryOpts),
        query_dep l o s = Except.ok q → q.limit ≠ 0 := by
  constructor
  · rfl
  · intro l o s q h
    unfold query_dep at h
    rcases hl : validate_query_int l none 0 with e1 | lv <;>
      rcases ho : validate_query_int o (some 0) 0 with e2 | ov <;>
        rw [hl, ho] at h <;> simp at h
    rw [← h]
    exact pyOrInt_ne_zero lv

/-- Witness for C10_zero_limit: the concrete extraction with limit 0
succeeds and the general theorem applies to it, giving a nonzero
delivered limit. -/
theorem C10_zero_limit_witness :
    query_dep (some 0) none none = Except.ok ⟨100, 0, none⟩
    ∧ (⟨100, 0, none⟩ : QueryOpts).limit ≠ 0 :=
  ⟨rfl, C10_zero_limit.2 (some 0) none none ⟨100, 0, none⟩ rfl⟩

end Macmac
